import Mathlib

/-!
# playserve: `static/js/toast.js`

A shallow embedding of `showToast(title, message, type = 'success')` and of the
part of the browser it talks to: `document.getElementById`, the `textContent`,
`className` and `style.display` setters, `classList.add` / `classList.remove`
(DOM Standard, DOMTokenList) and `setTimeout` with a one-shot timer queue.

JavaScript values are restricted to strings; an omitted (or `undefined`)
third argument is `none`.  A statement that throws stops the call and keeps
every mutation made before it, so a call yields the world it reached together
with the error it raised, if any.
-/

namespace Toast

set_option linter.constructorNameAsVariable false

/-! ## Data model -/

/-- Errors a statement of `showToast` can raise. -/
inductive JSError
  | typeError          -- a property is read or written through `null`
  | syntaxErr          -- DOMException "SyntaxError": the class token is empty
  | invalidCharacter   -- DOMException "InvalidCharacterError": the token holds ASCII whitespace
  deriving DecidableEq

/-- A child node of an element: a Text node, or an Element child summarised by
its tag and the text of its subtree. -/
inductive Child
  | text (data : String)
  | element (tag : String) (inner : String)
  deriving DecidableEq

/-- The state of one DOM element that `showToast` reads or writes: its child
nodes, the token set behind `classList`, and the inline `style.display`. -/
structure Element where
  children : List Child
  classList : List String
  display : String
  deriving DecidableEq

/-- The six nodes `showToast` looks up. -/
inductive NodeRef
  | overlay
  | content
  | title
  | message
  | iconSuccess
  | iconError
  deriving DecidableEq

/-- The page: each of the six nodes is present or absent. -/
structure Page where
  overlay : Option Element
  content : Option Element
  title : Option Element
  message : Option Element
  iconSuccess : Option Element
  iconError : Option Element
  deriving DecidableEq

/-- The arrow function passed to `setTimeout`:
`() => { overlay.classList.remove('is-visible'); }`, closed over the node
bound to `overlay`. -/
inductive Callback
  | hideOverlay (overlay : NodeRef)
  deriving DecidableEq

/-- A pending one-shot timer. -/
structure Timer where
  due : Nat
  delay : Nat
  callback : Callback
  deriving DecidableEq

/-- The page together with the clock (in ms) and the pending timers, in
registration order. -/
structure World where
  page : Page
  now : Nat
  timers : List Timer
  deriving DecidableEq

/-- The result of a call: the world reached, and the error raised, if any. -/
structure Outcome where
  world : World
  error : Option JSError
  deriving DecidableEq

/-! ## DOM primitives -/

/-- The text a child contributes to its parent's `textContent`. -/
def Child.textContent : Child → String
  | Child.text data => data
  | Child.element _ inner => inner

/-- Whether the child is a Text node. -/
def Child.isText : Child → Bool
  | Child.text _ => true
  | Child.element _ _ => false

/-- The `textContent` getter: the concatenated text of the children. -/
def Element.textContent (e : Element) : String :=
  String.join (e.children.map Child.textContent)

/-- The `textContent` setter: every child is replaced by a single Text node
holding the string, or by nothing when the string is empty. -/
def Element.setTextContent (e : Element) (s : String) : Element :=
  { e with children := if s = "" then [] else [Child.text s] }

/-- ASCII whitespace: TAB, LF, FF, CR, SPACE. -/
def isAsciiWhitespace (c : Char) : Bool :=
  c.toNat = 9 || c.toNat = 10 || c.toNat = 12 || c.toNat = 13 || c.toNat = 32

/-- Appending to an ordered set: nothing happens when the item is there. -/
def setAppend (set : List String) (tok : String) : List String :=
  if tok ∈ set then set else set ++ [tok]

/-- Split on ASCII whitespace; `cur` is the token being read, reversed. -/
def splitTokens : List Char → List Char → List String
  | [], cur => if cur = [] then [] else [String.mk cur.reverse]
  | c :: cs, cur =>
    if isAsciiWhitespace c then
      (if cur = [] then splitTokens cs [] else String.mk cur.reverse :: splitTokens cs [])
    else splitTokens cs (c :: cur)

/-- The ordered set parser: the whitespace-separated tokens, without repeats. -/
def parseOrderedSet (s : String) : List String :=
  (splitTokens s.data []).foldl setAppend []

/-- The `className` setter: the class attribute is replaced, so the token set
is the parse of the new value. -/
def Element.setClassName (e : Element) (s : String) : Element :=
  { e with classList := parseOrderedSet s }

/-- The token check of `classList.add` and `classList.remove`. -/
def validateToken (tok : String) : Option JSError :=
  if tok = "" then some JSError.syntaxErr
  else if tok.data.any isAsciiWhitespace then some JSError.invalidCharacter
  else none

/-- The effect of `classList.add(tok)`. -/
def Element.classListAdd (e : Element) (tok : String) : Except JSError Element :=
  match validateToken tok with
  | some err => Except.error err
  | none => Except.ok { e with classList := setAppend e.classList tok }

/-- The effect of `classList.remove(tok)`. -/
def Element.classListRemove (e : Element) (tok : String) : Except JSError Element :=
  match validateToken tok with
  | some err => Except.error err
  | none => Except.ok { e with classList := e.classList.filter (fun t => t ≠ tok) }

/-- The `style.display` setter. -/
def Element.setDisplay (e : Element) (v : String) : Element :=
  { e with display := v }

/-- Whether the inline style lets the element show. -/
def Element.isShown (e : Element) : Bool :=
  e.display ≠ "none"

/-! ## The document -/

/-- The node behind a reference. -/
def Page.get (p : Page) : NodeRef → Option Element
  | NodeRef.overlay => p.overlay
  | NodeRef.content => p.content
  | NodeRef.title => p.title
  | NodeRef.message => p.message
  | NodeRef.iconSuccess => p.iconSuccess
  | NodeRef.iconError => p.iconError

/-- Store a new state for the node behind a reference. -/
def Page.set (p : Page) (r : NodeRef) (e : Element) : Page :=
  match r with
  | NodeRef.overlay => { p with overlay := some e }
  | NodeRef.content => { p with content := some e }
  | NodeRef.title => { p with title := some e }
  | NodeRef.message => { p with message := some e }
  | NodeRef.iconSuccess => { p with iconSuccess := some e }
  | NodeRef.iconError => { p with iconError := some e }

/-- The node an identifier names in the page template. -/
def refOfId (id : String) : Option NodeRef :=
  if id = "toast-popup-overlay" then some NodeRef.overlay
  else if id = "toast-popup-content" then some NodeRef.content
  else if id = "toast-popup-title" then some NodeRef.title
  else if id = "toast-popup-message" then some NodeRef.message
  else if id = "toast-icon-success" then some NodeRef.iconSuccess
  else if id = "toast-icon-error" then some NodeRef.iconError
  else none

/-- The call `document.getElementById(id)`: a reference to the node, or
`null` (`none`) when the page has no such node. -/
def Page.getElementById (p : Page) (id : String) : Option NodeRef :=
  match refOfId id with
  | none => none
  | some r => if (p.get r).isSome then some r else none

/-- Whether all six nodes are in the page. -/
def Page.complete (p : Page) : Bool :=
  p.overlay.isSome && p.content.isSome && p.title.isSome && p.message.isSome
    && p.iconSuccess.isSome && p.iconError.isSome

/-! ## Statements -/

/-- Normal completion. -/
def Outcome.ok (w : World) : Outcome := { world := w, error := none }

/-- Abrupt completion: the world is kept as it was when the error was raised. -/
def Outcome.throw (w : World) (err : JSError) : Outcome := { world := w, error := some err }

/-- Sequencing: the next statement runs only after a normal completion. -/
def Outcome.andThen (o : Outcome) (next : World → Outcome) : Outcome :=
  match o.error with
  | some _ => o
  | none => next o.world

/-- A property write `target.prop = v` that cannot fail on a node: it raises a
TypeError when `target` is `null`. -/
def assign (target : Option NodeRef) (f : Element → Element) (w : World) : Outcome :=
  match target with
  | none => Outcome.throw w JSError.typeError
  | some r =>
    match w.page.get r with
    | none => Outcome.ok w
    | some e => Outcome.ok { w with page := w.page.set r (f e) }

/-- A method call `target.classList.m(tok)`: a TypeError when `target` is
`null`, else the error of the method, else the updated node. -/
def invoke (target : Option NodeRef) (m : Element → Except JSError Element) (w : World) :
    Outcome :=
  match target with
  | none => Outcome.throw w JSError.typeError
  | some r =>
    match w.page.get r with
    | none => Outcome.ok w
    | some e =>
      match m e with
      | Except.error err => Outcome.throw w err
      | Except.ok e2 => Outcome.ok { w with page := w.page.set r e2 }

/-- The call `setTimeout(callback, delay)`: one more pending one-shot timer. -/
def setTimeout (callback : Callback) (delay : Nat) (w : World) : World :=
  { w with timers := w.timers ++ [{ due := w.now + delay, delay := delay, callback := callback }] }

/-- Running a timer callback. -/
def runCallback (cb : Callback) (p : Page) : Page :=
  match cb with
  | Callback.hideOverlay overlay =>
    match p.get overlay with
    | none => p
    | some e =>
      match e.classListRemove "is-visible" with
      | Except.error _ => p
      | Except.ok e2 => p.set overlay e2

/-- The event loop after `dt` more milliseconds: the timers that are due run
in order of their due time (registration order among equals) and leave the
queue; the others stay pending. -/
def elapse (dt : Nat) (w : World) : World :=
  let t := w.now + dt
  let ready := (w.timers.filter (fun tm => tm.due ≤ t)).insertionSort (fun a b => a.due ≤ b.due)
  { page := ready.foldl (fun p tm => runCallback tm.callback p) w.page
    now := t
    timers := w.timers.filter (fun tm => ¬ tm.due ≤ t) }

/-! ## `showToast` -/

/-- The function `showToast(title, message, type = 'success')` of
`static/js/toast.js`, statement by statement. -/
def showToast (title message : String) (typeArg : Option String) (w : World) : Outcome :=
  let type := typeArg.getD "success"
  let overlay := w.page.getElementById "toast-popup-overlay"
  match overlay with
  | none => Outcome.ok w
  | some overlayNode =>
    let content := w.page.getElementById "toast-popup-content"
    let toastTitle := w.page.getElementById "toast-popup-title"
    let toastMessage := w.page.getElementById "toast-popup-message"
    let iconSuccess := w.page.getElementById "toast-icon-success"
    let iconError := w.page.getElementById "toast-icon-error"
    (assign toastTitle (fun e => e.setTextContent title) w).andThen fun w1 =>
    (assign toastMessage (fun e => e.setTextContent message) w1).andThen fun w2 =>
    (assign content (fun e => e.setClassName "toast-popup-content") w2).andThen fun w3 =>
    (invoke content (fun e => e.classListAdd type) w3).andThen fun w4 =>
    (if type = "success" then
      (assign iconSuccess (fun e => e.setDisplay "block") w4).andThen fun w5 =>
      assign iconError (fun e => e.setDisplay "none") w5
    else if type = "error" then
      (assign iconSuccess (fun e => e.setDisplay "none") w4).andThen fun w5 =>
      assign iconError (fun e => e.setDisplay "block") w5
    else Outcome.ok w4).andThen fun w6 =>
    (invoke overlay (fun e => e.classListAdd "is-visible") w6).andThen fun w7 =>
    Outcome.ok (setTimeout (Callback.hideOverlay overlayNode) 3000 w7)

/-! ## Sample states -/

/-- An element with no children, no class and no inline display. -/
def blank : Element := { children := [], classList := [], display := "" }

/-- A page with the six nodes as the template ships them. -/
def samplePage : Page :=
  { overlay := some { blank with classList := ["toast-popup-overlay"] }
    content := some { blank with classList := ["toast-popup-content"] }
    title := some { blank with children := [Child.text "Title"] }
    message := some { blank with children := [Child.text "Message"] }
    iconSuccess := some { blank with display := "none" }
    iconError := some { blank with display := "none" } }

/-- The sample page at time 0 with nothing pending. -/
def sampleWorld : World := { page := samplePage, now := 0, timers := [] }

/-- A page without the overlay whose other five nodes hold earlier content. -/
def pageNoOverlay : Page := { samplePage with overlay := none }

/-- The sample world with a content node that carries classes of earlier calls. -/
def staleWorld : World :=
  { sampleWorld with
    page := { samplePage with
      content := some { blank with classList := ["toast-popup-content", "error", "success", "x"] } } }

/-- The sample page without the title node. -/
def pageNoTitle : Page := { samplePage with title := none }

/-- The sample world with both icons on display. -/
def bothShownWorld : World :=
  { sampleWorld with
    page := { samplePage with
      iconSuccess := some { blank with display := "block" }
      iconError := some { blank with display := "block" } } }

/-! ## Observations and scenarios -/

/-- Whether the element carries the class. -/
def Element.hasClass (e : Element) (tok : String) : Bool :=
  decide (tok ∈ e.classList)

/-- How many of the two icons are present and shown. -/
def Page.shownIcons (p : Page) : Nat :=
  (match p.iconSuccess with
    | some e => if e.isShown then 1 else 0
    | none => 0)
  + (match p.iconError with
    | some e => if e.isShown then 1 else 0
    | none => 0)

/-- The timer a call of `showToast` at time `now` registers. -/
def hideTimer (now : Nat) : Timer :=
  { due := now + 3000, delay := 3000, callback := Callback.hideOverlay NodeRef.overlay }

/-- Scenario of two overlapping calls: `showToast` with kind `success`, then
1000 ms later `showToast` with kind `error`; the outcome of the second call. -/
def secondCall (title1 message1 title2 message2 : String) (w : World) : Outcome :=
  showToast title2 message2 (some "error")
    (elapse 1000 (showToast title1 message1 (some "success") w).world)

/-- The scenario 3000 ms after the first call (2000 ms after the second). -/
def atFirstTimer (title1 message1 title2 message2 : String) (w : World) : World :=
  elapse 2000 (secondCall title1 message1 title2 message2 w).world

/-- The scenario 4000 ms after the first call (3000 ms after the second). -/
def atSecondTimer (title1 message1 title2 message2 : String) (w : World) : World :=
  elapse 1000 (atFirstTimer title1 message1 title2 message2 w)

/-! ## Shared lemmas -/

theorem validateToken_isVisible : validateToken "is-visible" = none := by decide

theorem parseOrderedSet_base : parseOrderedSet "toast-popup-content" = ["toast-popup-content"] := by
  decide

/-- A complete page is six present nodes. -/
theorem Page.complete_elim (p : Page) (h : p.complete = true) :
    ∃ o c t m s e, p = ⟨some o, some c, some t, some m, some s, some e⟩ := by
  obtain ⟨o, c, t, m, s, e⟩ := p
  cases o <;> cases c <;> cases t <;> cases m <;> cases s <;> cases e <;>
    simp [Page.complete] at h
  exact ⟨_, _, _, _, _, _, rfl⟩

/-- Closed form of a call on a page with all six nodes, for a kind that
`classList.add` accepts. -/
theorem showToast_complete (title message type : String) (o c t m s e : Element) (now : Nat)
    (timers : List Timer) (hv : validateToken type = none) :
    showToast title message (some type)
        { page := ⟨some o, some c, some t, some m, some s, some e⟩, now := now, timers := timers }
      = Outcome.ok
        { page :=
            { overlay := some { o with classList := setAppend o.classList "is-visible" }
              content := some { c with classList := setAppend ["toast-popup-content"] type }
              title := some (t.setTextContent title)
              message := some (m.setTextContent message)
              iconSuccess := some (if type = "success" then s.setDisplay "block"
                else if type = "error" then s.setDisplay "none" else s)
              iconError := some (if type = "success" then e.setDisplay "none"
                else if type = "error" then e.setDisplay "block" else e) }
          now := now
          timers := timers ++ [hideTimer now] } := by
  by_cases h1 : type = "success"
  · subst h1
    simp [showToast, Page.getElementById, refOfId, Page.get, Page.set, assign, invoke,
      Outcome.andThen, Outcome.ok, Outcome.throw, Element.classListAdd, hv,
      validateToken_isVisible, Element.setClassName, parseOrderedSet_base, setTimeout, hideTimer]
  · by_cases h2 : type = "error"
    · subst h2
      simp [showToast, Page.getElementById, refOfId, Page.get, Page.set, assign, invoke,
        Outcome.andThen, Outcome.ok, Outcome.throw, Element.classListAdd, hv,
        validateToken_isVisible, Element.setClassName, parseOrderedSet_base, setTimeout, hideTimer]
    · simp [showToast, Page.getElementById, refOfId, Page.get, Page.set, assign, invoke,
        Outcome.andThen, Outcome.ok, Outcome.throw, Element.classListAdd, hv,
        validateToken_isVisible, Element.setClassName, parseOrderedSet_base, setTimeout, hideTimer, h1, h2]

/-- Reading back what the `textContent` setter stored gives the string. -/
theorem textContent_setTextContent (e : Element) (s : String) :
    (e.setTextContent s).textContent = s := by
  by_cases h : s = ""
  · simp [Element.setTextContent, Element.textContent, String.join, h]
  · simp [Element.setTextContent, Element.textContent, String.join, h, Child.textContent]

/-- The `textContent` setter leaves Text children only. -/
theorem children_setTextContent (e : Element) (s : String) :
    (e.setTextContent s).children.all Child.isText = true := by
  by_cases h : s = ""
  · simp [Element.setTextContent, h]
  · simp [Element.setTextContent, h, Child.isText]

/-- Without the overlay the call returns at once, with the world as it was. -/
theorem showToast_absent_eq (title message : String) (kind : Option String) (w : World)
    (h : w.page.overlay = none) : showToast title message kind w = Outcome.ok w := by
  simp [showToast, Page.getElementById, refOfId, Page.get, h]

/-! ## C1: overlay absent -/

/-- C1: when the node `toast-popup-overlay` is absent, `showToast` raises no
error, leaves the whole page (so the text, class list and display of the other
five nodes) as it was, and schedules no timer, for every title, message and
kind. -/
theorem showToast_overlay_absent (title message : String) (kind : Option String) (w : World)
    (h : w.page.overlay = none) :
    (showToast title message kind w).error = none
      ∧ (showToast title message kind w).world.page = w.page
      ∧ (showToast title message kind w).world.timers = w.timers := by
  simp [showToast, Page.getElementById, refOfId, Page.get, h, Outcome.ok]

/-- A call with markup in the title on the sample page without its overlay, at time 7. -/
theorem showToast_overlay_absent_witness :
    (showToast "<b>Hi</b>" "" (some "error") ⟨pageNoOverlay, 7, []⟩).error = none
      ∧ (showToast "<b>Hi</b>" "" (some "error") ⟨pageNoOverlay, 7, []⟩).world.page = pageNoOverlay
      ∧ (showToast "<b>Hi</b>" "" (some "error") ⟨pageNoOverlay, 7, []⟩).world.timers = [] :=
  showToast_overlay_absent "<b>Hi</b>" "" (some "error") ⟨pageNoOverlay, 7, []⟩ rfl

/-! ## C2: text fidelity -/

/-- C2: with the six nodes present and kind `success` or `error`, after the
call the `textContent` of the title node is `title` and that of the message
node is `message`, whatever they held before, and both nodes have Text
children only: the strings are stored as text, not parsed as markup. -/
theorem showToast_text_fidelity (title message kind : String) (w : World)
    (hc : w.page.complete = true) (hk : kind = "success" ∨ kind = "error") :
    (showToast title message (some kind) w).world.page.title.map Element.textContent
        = some title
      ∧ (showToast title message (some kind) w).world.page.message.map Element.textContent
        = some message
      ∧ (showToast title message (some kind) w).world.page.title.map
          (fun e => e.children.all Child.isText) = some true
      ∧ (showToast title message (some kind) w).world.page.message.map
          (fun e => e.children.all Child.isText) = some true := by
  obtain ⟨p, now, timers⟩ := w
  obtain ⟨o, c, t, m, s, e, rfl⟩ := Page.complete_elim p hc
  have hv : validateToken kind = none := by rcases hk with rfl | rfl <;> decide
  rw [showToast_complete title message kind o c t m s e now timers hv]
  simp [Outcome.ok, textContent_setTextContent, children_setTextContent]

/-- A title that looks like markup and an empty message, on the sample page. -/
theorem showToast_text_fidelity_witness :
    (showToast "<script>x</script>" "" (some "error") sampleWorld).world.page.title.map
        Element.textContent = some "<script>x</script>"
      ∧ (showToast "<script>x</script>" "" (some "error") sampleWorld).world.page.message.map
        Element.textContent = some ""
      ∧ (showToast "<script>x</script>" "" (some "error") sampleWorld).world.page.title.map
          (fun e => e.children.all Child.isText) = some true
      ∧ (showToast "<script>x</script>" "" (some "error") sampleWorld).world.page.message.map
          (fun e => e.children.all Child.isText) = some true :=
  showToast_text_fidelity "<script>x</script>" "" "error" sampleWorld rfl (Or.inr rfl)

/-! ## C3: exclusive class -/

/-- C3: with the six nodes present, whatever class list the content node had,
after the call it is exactly `toast-popup-content` followed by the kind, for
kind `success` and for kind `error`. -/
theorem showToast_content_classList (title message kind : String) (w : World)
    (hc : w.page.complete = true) (hk : kind = "success" ∨ kind = "error") :
    (showToast title message (some kind) w).world.page.content.map Element.classList
      = some ["toast-popup-content", kind] := by
  obtain ⟨p, now, timers⟩ := w
  obtain ⟨o, c, t, m, s, e, rfl⟩ := Page.complete_elim p hc
  have hv : validateToken kind = none := by rcases hk with rfl | rfl <;> decide
  rw [showToast_complete title message kind o c t m s e now timers hv]
  rcases hk with rfl | rfl <;> simp [Outcome.ok, setAppend]

/-- A content node that carries `error`, `success` and `x` from earlier calls. -/
theorem showToast_content_classList_witness :
    (showToast "Saved" "ok" (some "success") staleWorld).world.page.content.map Element.classList
      = some ["toast-popup-content", "success"] :=
  showToast_content_classList "Saved" "ok" "success" staleWorld rfl (Or.inl rfl)

/-! ## C4: icon exclusivity -/

/-- C4: with the six nodes present, whatever the two icons displayed before,
after a call with kind `success` the success icon has display `block` and the
error icon `none`, and after a call with kind `error` the success icon has
display `none` and the error icon `block`. -/
theorem showToast_icon_display (title message : String) (w : World)
    (hc : w.page.complete = true) :
    ((showToast title message (some "success") w).world.page.iconSuccess.map Element.display
        = some "block"
      ∧ (showToast title message (some "success") w).world.page.iconError.map Element.display
        = some "none")
    ∧ ((showToast title message (some "error") w).world.page.iconSuccess.map Element.display
        = some "none"
      ∧ (showToast title message (some "error") w).world.page.iconError.map Element.display
        = some "block") := by
  obtain ⟨p, now, timers⟩ := w
  obtain ⟨o, c, t, m, s, e, rfl⟩ := Page.complete_elim p hc
  rw [showToast_complete title message "success" o c t m s e now timers (by decide),
    showToast_complete title message "error" o c t m s e now timers (by decide)]
  simp [Outcome.ok, Element.setDisplay]

/-- Both kinds on the sample page, whose icons both start hidden. -/
theorem showToast_icon_display_witness :
    ((showToast "a" "b" (some "success") sampleWorld).world.page.iconSuccess.map Element.display
        = some "block"
      ∧ (showToast "a" "b" (some "success") sampleWorld).world.page.iconError.map Element.display
        = some "none")
    ∧ ((showToast "a" "b" (some "error") sampleWorld).world.page.iconSuccess.map Element.display
        = some "none"
      ∧ (showToast "a" "b" (some "error") sampleWorld).world.page.iconError.map Element.display
        = some "block") :=
  showToast_icon_display "a" "b" sampleWorld rfl

/-! ## C5: auto-hide -/

/-- Running the hide callback on a page with an overlay. -/
theorem runCallback_hideOverlay (o : Element) (c t m s e : Option Element) :
    runCallback (Callback.hideOverlay NodeRef.overlay) ⟨some o, c, t, m, s, e⟩
      = ⟨some { o with classList := o.classList.filter (fun x => x ≠ "is-visible") },
          c, t, m, s, e⟩ := by
  simp [runCallback, Page.get, Page.set, Element.classListRemove, validateToken_isVisible]

/-- A lone pending timer that is not due stays pending and the page is untouched. -/
theorem elapse_one_pending (p : Page) (now dt : Nat) (a : Timer) (h : now + dt < a.due) :
    elapse dt ⟨p, now, [a]⟩ = ⟨p, now + dt, [a]⟩ := by
  simp [elapse, h]

/-- A lone pending timer that is due fires and leaves the queue. -/
theorem elapse_one_due (p : Page) (now dt : Nat) (a : Timer) (h : a.due ≤ now + dt) :
    elapse dt ⟨p, now, [a]⟩ = ⟨runCallback a.callback p, now + dt, []⟩ := by
  simp [elapse, h]

/-- Of two pending timers only the first is due: it fires, the second stays. -/
theorem elapse_two_first_due (p : Page) (now dt : Nat) (a b : Timer)
    (ha : a.due ≤ now + dt) (hb : now + dt < b.due) :
    elapse dt ⟨p, now, [a, b]⟩ = ⟨runCallback a.callback p, now + dt, [b]⟩ := by
  simp [elapse, ha, hb]

/-- After `classList.add('is-visible')` the token is in the set. -/
theorem mem_setAppend (l : List String) (tok : String) : tok ∈ setAppend l tok := by
  unfold setAppend
  split_ifs with h
  · exact h
  · simp

/-- C5: with the six nodes present and no timer pending, a call with kind
`success` or `error` returns normally with `is-visible` in the overlay's class
list and exactly one pending timer, of delay 3000 ms; before 3000 ms have
passed the overlay still carries `is-visible`; once 3000 ms have passed the
timer has fired, `is-visible` is gone and no timer is left. -/
theorem showToast_auto_hide (title message kind : String) (w : World)
    (hc : w.page.complete = true) (ht : w.timers = [])
    (hk : kind = "success" ∨ kind = "error") :
    (showToast title message (some kind) w).error = none
      ∧ (showToast title message (some kind) w).world.page.overlay.map
          (fun e => e.hasClass "is-visible") = some true
      ∧ (showToast title message (some kind) w).world.timers
          = [{ due := w.now + 3000, delay := 3000,
               callback := Callback.hideOverlay NodeRef.overlay }]
      ∧ (∀ dt, dt < 3000 →
          (elapse dt (showToast title message (some kind) w).world).page.overlay.map
            (fun e => e.hasClass "is-visible") = some true)
      ∧ (elapse 3000 (showToast title message (some kind) w).world).page.overlay.map
          (fun e => e.hasClass "is-visible") = some false
      ∧ (elapse 3000 (showToast title message (some kind) w).world).timers = [] := by
  obtain ⟨p, now, timers⟩ := w
  obtain ⟨o, c, t, m, s, e, rfl⟩ := Page.complete_elim p hc
  have hv : validateToken kind = none := by rcases hk with rfl | rfl <;> decide
  simp only at ht
  subst ht
  rw [showToast_complete title message kind o c t m s e now [] hv]
  have hdue : (hideTimer now).due ≤ now + 3000 := le_refl _
  refine ⟨rfl, ?_, rfl, ?_, ?_, ?_⟩
  · simp [Outcome.ok, Element.hasClass, mem_setAppend]
  · intro dt hdt
    have hlt : now + dt < (hideTimer now).due := by
      show now + dt < now + 3000
      omega
    simp only [Outcome.ok, List.nil_append]
    rw [elapse_one_pending _ _ _ _ hlt]
    simp [Element.hasClass, mem_setAppend]
  · simp only [Outcome.ok, List.nil_append]
    rw [elapse_one_due _ _ _ _ hdue]
    simp [hideTimer, runCallback_hideOverlay, Element.hasClass]
  · simp only [Outcome.ok, List.nil_append]
    rw [elapse_one_due _ _ _ _ hdue]

/-- Scenario A on the sample page: shown at once, hidden 3000 ms later. -/
theorem showToast_auto_hide_witness :
    (showToast "Saved" "ok" (some "success") sampleWorld).error = none
      ∧ (showToast "Saved" "ok" (some "success") sampleWorld).world.page.overlay.map
          (fun e => e.hasClass "is-visible") = some true
      ∧ (showToast "Saved" "ok" (some "success") sampleWorld).world.timers
          = [{ due := sampleWorld.now + 3000, delay := 3000,
               callback := Callback.hideOverlay NodeRef.overlay }]
      ∧ (∀ dt, dt < 3000 →
          (elapse dt (showToast "Saved" "ok" (some "success") sampleWorld).world).page.overlay.map
            (fun e => e.hasClass "is-visible") = some true)
      ∧ (elapse 3000 (showToast "Saved" "ok" (some "success") sampleWorld).world).page.overlay.map
          (fun e => e.hasClass "is-visible") = some false
      ∧ (elapse 3000 (showToast "Saved" "ok" (some "success") sampleWorld).world).timers = [] :=
  showToast_auto_hide "Saved" "ok" "success" sampleWorld rfl rfl (Or.inl rfl)

/-! ## C6: default kind -/

/-- The default parameter: an omitted kind is the kind `success`. -/
theorem showToast_default (title message : String) (kind : Option String) (w : World) :
    showToast title message kind w = showToast title message (some (kind.getD "success")) w := by
  cases kind <;> rfl

/-- C6: a call with the kind omitted yields the same outcome (page, timers and
completion) as the call with kind `success`, in every world; with the six nodes
present the content class list is `toast-popup-content`, `success`, the success
icon has display `block`, the error icon `none`, and the overlay carries
`is-visible`. -/
theorem showToast_kind_omitted (title message : String) (w : World) :
    showToast title message none w = showToast title message (some "success") w
      ∧ (w.page.complete = true →
          (showToast title message none w).world.page.content.map Element.classList
              = some ["toast-popup-content", "success"]
            ∧ (showToast title message none w).world.page.iconSuccess.map Element.display
              = some "block"
            ∧ (showToast title message none w).world.page.iconError.map Element.display
              = some "none"
            ∧ (showToast title message none w).world.page.overlay.map
              (fun e => e.hasClass "is-visible") = some true) := by
  refine ⟨rfl, fun hc => ?_⟩
  obtain ⟨p, now, timers⟩ := w
  obtain ⟨o, c, t, m, s, e, rfl⟩ := Page.complete_elim p hc
  rw [showToast_default, Option.getD_none,
    showToast_complete title message "success" o c t m s e now timers (by decide)]
  have hcls : setAppend ["toast-popup-content"] "success" = ["toast-popup-content", "success"] := by
    decide
  simp [Outcome.ok, hcls, Element.setDisplay, Element.hasClass, mem_setAppend]

/-- Scenario A on the sample page, with the kind omitted. -/
theorem showToast_kind_omitted_witness :
    showToast "Saved" "Your changes were saved." none sampleWorld
        = showToast "Saved" "Your changes were saved." (some "success") sampleWorld
      ∧ (showToast "Saved" "Your changes were saved." none sampleWorld).world.page.content.map
          Element.classList = some ["toast-popup-content", "success"]
      ∧ (showToast "Saved" "Your changes were saved." none sampleWorld).world.page.iconSuccess.map
          Element.display = some "block"
      ∧ (showToast "Saved" "Your changes were saved." none sampleWorld).world.page.iconError.map
          Element.display = some "none"
      ∧ (showToast "Saved" "Your changes were saved." none sampleWorld).world.page.overlay.map
          (fun e => e.hasClass "is-visible") = some true :=
  ⟨(showToast_kind_omitted "Saved" "Your changes were saved." sampleWorld).1,
    (showToast_kind_omitted "Saved" "Your changes were saved." sampleWorld).2 rfl⟩

/-! ## C7: completion -/

/-- C7, as stated, fails: with the overlay present and the title node absent
the first assignment goes through `null` and the call raises a TypeError; with
all six nodes present and an empty kind `classList.add` raises a SyntaxError. -/
theorem showToast_raises :
    (showToast "Saved" "ok" (some "success") ⟨pageNoTitle, 0, []⟩).error
        = some JSError.typeError
      ∧ (showToast "Saved" "ok" (some "") sampleWorld).error = some JSError.syntaxErr := by
  decide

/-- C7, amended: the call completes normally, raising no error, when the
overlay is absent, and when all six nodes are present and the kind (`success`
when omitted) is a token `classList.add` accepts: not empty and free of ASCII
whitespace. -/
theorem showToast_completes (title message : String) (kind : Option String) (w : World)
    (h : w.page.overlay = none
      ∨ (w.page.complete = true ∧ validateToken (kind.getD "success") = none)) :
    (showToast title message kind w).error = none := by
  rcases h with h | ⟨hc, hv⟩
  · rw [showToast_absent_eq title message kind w h]
    rfl
  · obtain ⟨p, now, timers⟩ := w
    obtain ⟨o, c, t, m, s, e, rfl⟩ := Page.complete_elim p hc
    rw [showToast_default, showToast_complete title message _ o c t m s e now timers hv]
    rfl

/-- No overlay with the kind omitted, and the six nodes with kind `warning`. -/
theorem showToast_completes_witness :
    (showToast "a" "b" none ⟨pageNoOverlay, 0, []⟩).error = none
      ∧ (showToast "a" "b" (some "warning") sampleWorld).error = none :=
  ⟨showToast_completes "a" "b" none ⟨pageNoOverlay, 0, []⟩ (Or.inl rfl),
    showToast_completes "a" "b" (some "warning") sampleWorld (Or.inr ⟨rfl, by decide⟩)⟩

/-! ## C8: both icons written -/

/-- C8, as stated, fails: with kind `info` neither icon's display is written,
so two icons that were both on display before the call are both on display
after it. -/
theorem showToast_icons_left_over :
    (showToast "a" "b" (some "info") bothShownWorld).error = none
      ∧ (showToast "a" "b" (some "info") bothShownWorld).world.page.iconSuccess
        = bothShownWorld.page.iconSuccess
      ∧ (showToast "a" "b" (some "info") bothShownWorld).world.page.iconError
        = bothShownWorld.page.iconError
      ∧ (showToast "a" "b" (some "info") bothShownWorld).world.page.shownIcons = 2 := by
  decide

/-- C8, amended: with the six nodes present and kind `success` or `error`,
for every prior display state the call writes the display of both icons (the
values after the call depend on the kind alone: `block` and `none` for
`success`, `none` and `block` for `error`), so at most one icon is shown. -/
theorem showToast_icons_written (title message kind : String) (w : World)
    (hc : w.page.complete = true) (hk : kind = "success" ∨ kind = "error") :
    (showToast title message (some kind) w).world.page.iconSuccess.map Element.display
        = some (if kind = "success" then "block" else "none")
      ∧ (showToast title message (some kind) w).world.page.iconError.map Element.display
        = some (if kind = "success" then "none" else "block")
      ∧ (showToast title message (some kind) w).world.page.shownIcons ≤ 1 := by
  obtain ⟨p, now, timers⟩ := w
  obtain ⟨o, c, t, m, s, e, rfl⟩ := Page.complete_elim p hc
  have hv : validateToken kind = none := by rcases hk with rfl | rfl <;> decide
  rw [showToast_complete title message kind o c t m s e now timers hv]
  rcases hk with rfl | rfl <;>
    simp [Outcome.ok, Element.setDisplay, Page.shownIcons, Element.isShown]

/-- Kind `error` on a page where both icons were on display. -/
theorem showToast_icons_written_witness :
    (showToast "a" "b" (some "error") bothShownWorld).world.page.iconSuccess.map Element.display
        = some (if "error" = "success" then "block" else "none")
      ∧ (showToast "a" "b" (some "error") bothShownWorld).world.page.iconError.map Element.display
        = some (if "error" = "success" then "none" else "block")
      ∧ (showToast "a" "b" (some "error") bothShownWorld).world.page.shownIcons ≤ 1 :=
  showToast_icons_written "a" "b" "error" bothShownWorld rfl (Or.inr rfl)

/-! ## C9: other kinds -/

/-- C9, as stated, fails: on the sample page the empty kind makes
`classList.add` raise a SyntaxError and a kind with a space makes it raise an
InvalidCharacterError; the call stops there, so the overlay does not get
`is-visible` and no timer is scheduled. -/
theorem showToast_bad_kind_raises :
    ((showToast "a" "b" (some "") sampleWorld).error = some JSError.syntaxErr
      ∧ (showToast "a" "b" (some "") sampleWorld).world.page.overlay.map
          (fun e => e.hasClass "is-visible") = some false
      ∧ (showToast "a" "b" (some "") sampleWorld).world.timers = [])
    ∧ ((showToast "a" "b" (some "my kind") sampleWorld).error = some JSError.invalidCharacter
      ∧ (showToast "a" "b" (some "my kind") sampleWorld).world.page.overlay.map
          (fun e => e.hasClass "is-visible") = some false
      ∧ (showToast "a" "b" (some "my kind") sampleWorld).world.timers = []) := by
  decide

/-- C9, amended: for every kind other than `success` and `error` that
`classList.add` accepts (not empty, free of ASCII whitespace;
`toast-popup-content` is one), with the six nodes present the call raises no
error, the title and message slots hold `title` and `message`, the overlay's
class list contains `is-visible`, one timer of delay 3000 ms is added to the
pending ones, and both icon nodes are exactly as they were. -/
theorem showToast_other_kind (title message kind : String) (w : World)
    (hc : w.page.complete = true) (hs : kind ≠ "success") (he : kind ≠ "error")
    (hv : validateToken kind = none) :
    (showToast title message (some kind) w).error = none
      ∧ (showToast title message (some kind) w).world.page.title.map Element.textContent
        = some title
      ∧ (showToast title message (some kind) w).world.page.message.map Element.textContent
        = some message
      ∧ (showToast title message (some kind) w).world.page.overlay.map
          (fun e => e.hasClass "is-visible") = some true
      ∧ (showToast title message (some kind) w).world.timers
        = w.timers ++ [{ due := w.now + 3000, delay := 3000,
                         callback := Callback.hideOverlay NodeRef.overlay }]
      ∧ (showToast title message (some kind) w).world.page.iconSuccess = w.page.iconSuccess
      ∧ (showToast title message (some kind) w).world.page.iconError = w.page.iconError := by
  obtain ⟨p, now, timers⟩ := w
  obtain ⟨o, c, t, m, s, e, rfl⟩ := Page.complete_elim p hc
  rw [showToast_complete title message kind o c t m s e now timers hv]
  refine ⟨rfl, ?_, ?_, ?_, rfl, ?_, ?_⟩ <;>
    simp [Outcome.ok, textContent_setTextContent, Element.hasClass, mem_setAppend, hs, he]

/-- Kind `toast-popup-content` on a page where both icons were on display. -/
theorem showToast_other_kind_witness :
    (showToast "a" "" (some "toast-popup-content") bothShownWorld).error = none
      ∧ (showToast "a" "" (some "toast-popup-content") bothShownWorld).world.page.title.map
          Element.textContent = some "a"
      ∧ (showToast "a" "" (some "toast-popup-content") bothShownWorld).world.page.message.map
          Element.textContent = some ""
      ∧ (showToast "a" "" (some "toast-popup-content") bothShownWorld).world.page.overlay.map
          (fun e => e.hasClass "is-visible") = some true
      ∧ (showToast "a" "" (some "toast-popup-content") bothShownWorld).world.timers
        = bothShownWorld.timers ++ [{ due := bothShownWorld.now + 3000, delay := 3000,
                                      callback := Callback.hideOverlay NodeRef.overlay }]
      ∧ (showToast "a" "" (some "toast-popup-content") bothShownWorld).world.page.iconSuccess
        = bothShownWorld.page.iconSuccess
      ∧ (showToast "a" "" (some "toast-popup-content") bothShownWorld).world.page.iconError
        = bothShownWorld.page.iconError :=
  showToast_other_kind "a" "" "toast-popup-content" bothShownWorld rfl (by decide) (by decide)
    (by decide)

/-! ## C10: overlapping calls -/

/-- Removing `is-visible` twice is removing it once. -/
theorem runCallback_hideOverlay_twice (o : Element) (c t m s e : Option Element) :
    runCallback (Callback.hideOverlay NodeRef.overlay)
        (runCallback (Callback.hideOverlay NodeRef.overlay) ⟨some o, c, t, m, s, e⟩)
      = runCallback (Callback.hideOverlay NodeRef.overlay) ⟨some o, c, t, m, s, e⟩ := by
  simp [runCallback_hideOverlay, List.filter_filter]

/-- C10: from a world with the six nodes present and no timer pending
(whether or not the overlay starts hidden), call `showToast` with kind
`success`, let 1000 ms pass and call it with kind `error`.  Both calls return
normally and the second leaves two timers pending, due 3000 ms and 4000 ms
after the first call, with the overlay carrying `is-visible`.  At 3000 ms
after the first call the first timer has fired: the overlay has lost
`is-visible`, the content node carries `toast-popup-content`, `error`, and the
second timer is still pending.  At 4000 ms the second timer has fired too: the
page is unchanged, the overlay is still without `is-visible`, and no timer is
left. -/
theorem showToast_overlapping_calls (title1 message1 title2 message2 : String) (w : World)
    (hc : w.page.complete = true) (ht : w.timers = []) :
    (showToast title1 message1 (some "success") w).error = none
      ∧ (secondCall title1 message1 title2 message2 w).error = none
      ∧ (secondCall title1 message1 title2 message2 w).world.timers
        = [{ due := w.now + 3000, delay := 3000,
             callback := Callback.hideOverlay NodeRef.overlay },
           { due := w.now + 4000, delay := 3000,
             callback := Callback.hideOverlay NodeRef.overlay }]
      ∧ (secondCall title1 message1 title2 message2 w).world.page.overlay.map
          (fun e => e.hasClass "is-visible") = some true
      ∧ (atFirstTimer title1 message1 title2 message2 w).now = w.now + 3000
      ∧ (atFirstTimer title1 message1 title2 message2 w).page.overlay.map
          (fun e => e.hasClass "is-visible") = some false
      ∧ (atFirstTimer title1 message1 title2 message2 w).page.content.map Element.classList
        = some ["toast-popup-content", "error"]
      ∧ (atFirstTimer title1 message1 title2 message2 w).timers
        = [{ due := w.now + 4000, delay := 3000,
             callback := Callback.hideOverlay NodeRef.overlay }]
      ∧ (atSecondTimer title1 message1 title2 message2 w).now = w.now + 4000
      ∧ (atSecondTimer title1 message1 title2 message2 w).page
        = (atFirstTimer title1 message1 title2 message2 w).page
      ∧ (atSecondTimer title1 message1 title2 message2 w).page.overlay.map
          (fun e => e.hasClass "is-visible") = some false
      ∧ (atSecondTimer title1 message1 title2 message2 w).timers = [] := by
  obtain ⟨p, now, timers⟩ := w
  obtain ⟨o, c, t, m, s, e, rfl⟩ := Page.complete_elim p hc
  simp only at ht
  subst ht
  have h1 : now + 1000 < (hideTimer now).due := by
    show now + 1000 < now + 3000
    omega
  have h2 : (hideTimer now).due ≤ now + 1000 + 2000 := by
    show now + 3000 ≤ now + 1000 + 2000
    omega
  have h3 : now + 1000 + 2000 < (hideTimer (now + 1000)).due := by
    show now + 1000 + 2000 < now + 1000 + 3000
    omega
  have h4 : (hideTimer (now + 1000)).due ≤ now + 1000 + 2000 + 1000 := by
    show now + 1000 + 3000 ≤ now + 1000 + 2000 + 1000
    omega
  have e1 : now + 1000 + 3000 = now + 4000 := by omega
  have e2 : now + 1000 + 2000 = now + 3000 := by omega
  have e3 : now + 1000 + 2000 + 1000 = now + 4000 := by omega
  have hcls : setAppend ["toast-popup-content"] "error" = ["toast-popup-content", "error"] := by
    decide
  unfold atSecondTimer atFirstTimer secondCall
  rw [showToast_complete title1 message1 "success" o c t m s e now [] (by decide)]
  simp only [Outcome.ok, List.nil_append]
  rw [elapse_one_pending _ _ _ _ h1,
    showToast_complete title2 message2 "error" _ _ _ _ _ _ (now + 1000) _ (by decide)]
  simp only [Outcome.ok, List.singleton_append]
  rw [elapse_two_first_due _ _ _ _ _ h2 h3, elapse_one_due _ _ _ _ h4]
  refine ⟨trivial, trivial, ?_, ?_, ?_, ?_, ?_, ?_, ?_, ?_, ?_, rfl⟩
  · simp [hideTimer, e1]
  · simp [Element.hasClass, mem_setAppend]
  · exact e2
  · simp [hideTimer, runCallback_hideOverlay, Element.hasClass]
  · simp [hideTimer, runCallback_hideOverlay, hcls]
  · simp [hideTimer, e1]
  · exact e3
  · simp only [hideTimer]
    exact runCallback_hideOverlay_twice _ _ _ _ _ _
  · simp [hideTimer, runCallback_hideOverlay, Element.hasClass]

/-- Scenario D on the sample page. -/
theorem showToast_overlapping_calls_witness :
    (showToast "Saved" "ok" (some "success") sampleWorld).error = none
      ∧ (secondCall "Saved" "ok" "Failed" "Could not save." sampleWorld).error = none
      ∧ (secondCall "Saved" "ok" "Failed" "Could not save." sampleWorld).world.timers
        = [{ due := sampleWorld.now + 3000, delay := 3000,
             callback := Callback.hideOverlay NodeRef.overlay },
           { due := sampleWorld.now + 4000, delay := 3000,
             callback := Callback.hideOverlay NodeRef.overlay }]
      ∧ (secondCall "Saved" "ok" "Failed" "Could not save." sampleWorld).world.page.overlay.map
          (fun e => e.hasClass "is-visible") = some true
      ∧ (atFirstTimer "Saved" "ok" "Failed" "Could not save." sampleWorld).now
        = sampleWorld.now + 3000
      ∧ (atFirstTimer "Saved" "ok" "Failed" "Could not save." sampleWorld).page.overlay.map
          (fun e => e.hasClass "is-visible") = some false
      ∧ (atFirstTimer "Saved" "ok" "Failed" "Could not save." sampleWorld).page.content.map
          Element.classList = some ["toast-popup-content", "error"]
      ∧ (atFirstTimer "Saved" "ok" "Failed" "Could not save." sampleWorld).timers
        = [{ due := sampleWorld.now + 4000, delay := 3000,
             callback := Callback.hideOverlay NodeRef.overlay }]
      ∧ (atSecondTimer "Saved" "ok" "Failed" "Could not save." sampleWorld).now
        = sampleWorld.now + 4000
      ∧ (atSecondTimer "Saved" "ok" "Failed" "Could not save." sampleWorld).page
        = (atFirstTimer "Saved" "ok" "Failed" "Could not save." sampleWorld).page
      ∧ (atSecondTimer "Saved" "ok" "Failed" "Could not save." sampleWorld).page.overlay.map
          (fun e => e.hasClass "is-visible") = some false
      ∧ (atSecondTimer "Saved" "ok" "Failed" "Could not save." sampleWorld).timers = [] :=
  showToast_overlapping_calls "Saved" "ok" "Failed" "Could not save." sampleWorld rfl rfl

end Toast
